import Mathlib

/-!
Verification development for the BinFinder repository.

The definitions below are a shallow embedding of the pin-management core in
src/App/Components/Home/GoogleMap.js (marker lifecycle, nearest-marker search,
path construction, status notifier) and of the label-categorization step in
src/App/Screens/AnalyzeScreen.js.  JavaScript numbers are modelled as rational
numbers, JavaScript arrays as lists, and the component's mutable state as an
explicit state record threaded through the operations.
-/

namespace BinFinder

/-- Coordinate record, the shape of `marker.coordinate` and of `userLocation`
in GoogleMap.js: a latitude/longitude pair of JavaScript numbers, modelled as
rationals. -/
structure Coordinate where
  latitude : ℚ
  longitude : ℚ
deriving DecidableEq

/-- Local marker record as created by `handleAddMarker` (GoogleMap.js line
154): `{ id: Date.now(), coordinate, confirmed: false }`.  The spec's `placed`
status corresponds to `confirmed = false` and `confirmed` status to
`confirmed = true`. -/
structure LocalMarker where
  id : ℕ
  coordinate : Coordinate
  confirmed : Bool
deriving DecidableEq

/-- Entry of the `markerMap` key-value store (GoogleMap.js line 43): a display
key such as "#1" paired with a marker id. -/
structure MapEntry where
  key : String
  value : ℕ
deriving DecidableEq

/-- The GoogleMap component state relevant to the pin lifecycle claims: the
`markers` array, the `markerMap` key-value store and the `selectedMarker`
React state variables (GoogleMap.js lines 42-44). -/
structure MapState where
  markers : List LocalMarker
  markerMap : List MapEntry
  selectedMarker : Option LocalMarker
deriving DecidableEq

/-- A marker is in the spec's `placed` (unconfirmed) state when its
`confirmed` flag is false. -/
def isPlaced (m : LocalMarker) : Bool :=
  !m.confirmed

/-- Number of markers currently in `placed` state. -/
def placedCount (s : MapState) : ℕ :=
  (s.markers.filter isPlaced).length

/-- Embedding of `handleAddMarker(coordinate)` (GoogleMap.js lines 153-166).
The source creates `newMarker = { id: Date.now(), coordinate, confirmed:
false }`, unconditionally appends it to `markers`, and appends the entry
`{ key: "#" ++ (prevMarkers.length + 1), value: newMarker.id }` to
`markerMap`.  `Date.now()` is modelled by the explicit `newId` argument.
There is no check of any kind on the existing markers. -/
def handleAddMarker (s : MapState) (newId : ℕ) (coordinate : Coordinate) : MapState :=
  { s with
    markers := s.markers ++ [{ id := newId, coordinate := coordinate, confirmed := false }],
    markerMap := s.markerMap ++ [{ key := "#" ++ toString (s.markers.length + 1), value := newId }] }

/-- Embedding of `confirmMarker(markerId)` (GoogleMap.js lines 168-178): maps
over `markers`, replacing each marker whose id equals `markerId` by a copy
with `confirmed: true` and leaving every other marker untouched. -/
def confirmMarker (markers : List LocalMarker) (markerId : ℕ) : List LocalMarker :=
  markers.map (fun marker =>
    if marker.id = markerId then { marker with confirmed := true } else marker)

/-- Embedding of `removeMarker(markerId)` (GoogleMap.js lines 201-211):
filters `markers` and `markerMap` by `id !== markerId` / `value !== markerId`
and unconditionally ends with `setSelectedMarker(null)`. -/
def removeMarker (s : MapState) (markerId : ℕ) : MapState :=
  { s with
    markers := s.markers.filter (fun marker => marker.id != markerId),
    markerMap := s.markerMap.filter (fun entry => entry.value != markerId),
    selectedMarker := none }

/-- Embedding of the marker `onPress` handler (GoogleMap.js lines 304-309):
`setSelectedMarker(marker)` overwrites the single selection state variable
with the pressed marker; no condition on `marker.confirmed` is checked. -/
def markerOnPress (s : MapState) (marker : LocalMarker) : MapState :=
  { s with selectedMarker := some marker }

/-- The actions panel (GoogleMap.js line 345) is rendered exactly when
`selectedMarker` is non-null: `{selectedMarker && <View style=...>}`. -/
def actionsPanelVisible (s : MapState) : Bool :=
  s.selectedMarker.isSome

/-- The Navigate button (GoogleMap.js lines 356-364) sits inside the actions
panel with no further guard, so navigation to the selected marker is offered
exactly when the panel is visible, regardless of the marker's `confirmed`
flag. -/
def navigateActionAvailable (s : MapState) : Bool :=
  actionsPanelVisible s

/-- Squared Euclidean distance in degree-space between two coordinates.  The
source (GoogleMap.js lines 238-241) computes
`Math.sqrt(Math.pow(dLat, 2) + Math.pow(dLon, 2))`; this definition is the
quantity under the square root, which is rational and hence exactly
representable.  Theorems about the source's distance apply `Real.sqrt` to this
value; since the square root is strictly monotone on nonnegative reals, the
comparison `sqrt d < sqrt bd` performed by the source loop coincides with the
comparison `d < bd` on the squared values tracked here. -/
def dist2 (a b : Coordinate) : ℚ :=
  (a.latitude - b.latitude) ^ 2 + (a.longitude - b.longitude) ^ 2

/-- One iteration of the `markers.forEach` loop in `findNearestMarker`
(GoogleMap.js lines 237-246).  The accumulator holds the current
`(nearest, minDistance)` pair, with `none` standing for the initial
`nearest = null, minDistance = Infinity` (every finite distance satisfies
`distance < Infinity`, so the first marker always replaces `none`).  The
stored `ℚ` is the squared distance; the loop's strict `<` on square roots is
mirrored by strict `<` on the squares. -/
def nearestStep (u : Coordinate) (acc : Option (LocalMarker × ℚ)) (m : LocalMarker) :
    Option (LocalMarker × ℚ) :=
  match acc with
  | none => some (m, dist2 m.coordinate u)
  | some (best, bd) =>
      if dist2 m.coordinate u < bd then some (m, dist2 m.coordinate u) else some (best, bd)

/-- Embedding of `findNearestMarker` (GoogleMap.js lines 226-260): a linear
scan over the component's `markers` array starting from
`nearest = null, minDistance = Infinity`, returning the final
`(nearest, minDistance`²`)` pair, or `none` when the array is empty.  The
source then reports `minDistance * 111` kilometres (line 250). -/
def findNearestMarker (markers : List LocalMarker) (u : Coordinate) :
    Option (LocalMarker × ℚ) :=
  markers.foldl (nearestStep u) none

/-- Kilometres-per-degree factor used on GoogleMap.js line 250. -/
def kmPerDegree : ℚ := 111

/-- Embedding of `fetchPath(origin, destination)` (GoogleMap.js lines 59-68):
returns the three-point list `[origin, midpoint, destination]` where the
midpoint components are the arithmetic means of the endpoints. -/
def fetchPath (origin destination : Coordinate) : List Coordinate :=
  [origin,
   { latitude := (origin.latitude + destination.latitude) / 2,
     longitude := (origin.longitude + destination.longitude) / 2 },
   destination]

/-- Direction of an opacity animation on the `fadeAnim` value of
`updateStatus` (GoogleMap.js lines 136-151): `up` is the 300 ms fade-in to
opacity 1, `down` is the 300 ms fade-out to opacity 0. -/
inductive FadeDir where
  | up : FadeDir
  | down : FadeDir
deriving DecidableEq

/-- Timed model of `updateStatus` (GoogleMap.js lines 136-151).  A call at
time `t` sets `statusMessage` immediately and starts a 300 ms fade-in; when
the fade-in completes, `setTimeout(..., 2000)` schedules a fade-out that
starts 2000 ms later, i.e. at `t + 300 + 2000`.  The timeout is never
cleared, so every call contributes its fade-out event even after a later call
has replaced the message.  The model takes the list of calls `(time, message)`
in strictly increasing time order, with consecutive calls more than 300 ms
apart so that each fade-in completes uninterrupted, and derives the list of
opacity-animation start events. -/
def fadeEvents (calls : List (ℕ × String)) : List (ℕ × FadeDir) :=
  calls.map (fun c => (c.1, FadeDir.up)) ++
    calls.map (fun c => (c.1 + 300 + 2000, FadeDir.down))

/-- Latest animation event at or before time `t`, i.e. the animation driving
the opacity of the status message at time `t`.  On equal times the later
event in the list wins; the claims below only use inputs where event times
are distinct. -/
def lastFadeEventAt (events : List (ℕ × FadeDir)) (t : ℕ) : Option (ℕ × FadeDir) :=
  events.foldl
    (fun acc e =>
      if e.1 ≤ t then
        match acc with
        | none => some e
        | some a => if a.1 ≤ e.1 then some e else some a
      else acc)
    none

/-- Message shown at time `t`: `setStatusMessage(message)` runs synchronously
at the time of each call, so the displayed message is the one of the latest
call at or before `t` (GoogleMap.js line 137). -/
def statusMessageAt (calls : List (ℕ × String)) (t : ℕ) : Option String :=
  calls.foldl (fun acc c => if c.1 ≤ t then some c.2 else acc) none

/-- True when the status message is at full opacity at time `t`: the latest
animation event at or before `t` is a fade-in that has already completed
(300 ms elapsed).  After a fade-out event the message is fading or hidden,
not at full opacity. -/
def fullyVisibleAt (calls : List (ℕ × String)) (t : ℕ) : Bool :=
  match lastFadeEventAt (fadeEvents calls) t with
  | some (tau, FadeDir.up) => decide (tau + 300 ≤ t)
  | some (_, FadeDir.down) => false
  | none => false

/-- Lower-casing of a string, modelling the JavaScript
`label.description.toLowerCase()` call on AnalyzeScreen.js line 263: each
character is lowered individually.  (Defined structurally over the character
list so that concrete instances reduce in the kernel.) -/
def toLowerString (s : String) : String :=
  String.mk (s.data.map Char.toLower)

/-- One element of the Vision API response consumed by `analyzeImage`
(AnalyzeScreen.js line 260): a label with a description and a confidence
score. -/
structure LabelAnnotation where
  description : String
  score : ℚ
deriving DecidableEq

/-- Keyword list `landfill` from AnalyzeScreen.js (lines 41-64), copied verbatim. -/
def landfill : List String :=
  ["plastic bag", "chip bag", "styrofoam cup", "plastic straw", "candy wrapper",
   "disposable diaper", "plastic utensils", "ceramic plate", "broken mirror", "light bulb",
   "ballpoint pen", "toothbrush", "vacuum bag", "polystyrene foam", "frozen food bag",
   "gloves", "single-use razor", "rubber bands", "plastic wrap", "styrofoam packaging",
   "plastic bubble wrap", "non-recyclable plastic", "toothpaste tube", "makeup remover pad",
   "CD", "plastic coffee pod", "foil-lined carton", "empty tube of toothpaste", "shoes", "pen",
   "ball pen", "stationary", "laminated paper", "broken ceramics",
   "disposable coffee cups (non-compostable)", "bubble mailers",
   "clothing with synthetic fibers", "packaging peanuts", "plastic film", "PVC pipes",
   "plastic cutlery", "takeout containers with food residue", "broken furniture parts",
   "vacuum cleaner parts", "thermal receipts", "cigarette butts", "drink pouches", "foil bags",
   "aluminum-lined chip bags", "disposable masks", "disposable gloves", "nail polish bottles",
   "cosmetic packaging (non-recyclable)", "deodorant sticks", "sponges", "disposable razors",
   "plastic strapping", "toys with multiple materials", "shrink wrap", "disposable lighters",
   "broken hangers", "electric toothbrush heads", "party balloons", "glitter",
   "artificial flowers", "single-use coffee pods", "silica gel packets", "wax paper",
   "food packaging with foil lining", "broken zippers", "plastic stirrers", "fabric scraps",
   "disposable mop heads", "plastic straws", "coffee cups", "pizza box with food",
   "used toothbrush", "razors", "styrofoam", "worn-out clothes", "ceramic or broken glass",
   "sanitary products", "plastic cutlery"]

/-- Keyword list `compost` from AnalyzeScreen.js (lines 66-80), copied verbatim. -/
def compost : List String :=
  ["apple core", "banana peel", "coffee grounds", "tea bag", "vegetable scraps", "egg shell",
   "bread", "rice", "pasta", "corn cob", "fruit peel", "leafy greens", "grass clippings",
   "paper towel", "napkin", "wood chips", "compostable plate", "compostable cup", "flowers",
   "dead leaves", "nut shell", "hair", "feathers", "straw (plant-based)",
   "compostable utensils", "potato peels", "avocado skin", "fruit pits", "compostable bag",
   "shredded paper", "food", "compostable coffee cups", "soiled paper towels", "tea leaves",
   "biodegradable utensils", "sawdust", "wood shavings", "plant trimmings",
   "spoiled fruits and vegetables", "eggshells", "coffee filters",
   "compostable food containers", "wooden chopsticks", "fallen branches", "pumpkin shells",
   "compostable baking paper", "moldy bread", "expired produce", "herb stems", "peanut shells",
   "flower stems", "used tea bags", "used coffee pods (biodegradable)", "wooden chopsticks",
   "banana peel", "apple scrap", "pizza crust", "dry leaves", "moldy food", "nut shells"]

/-- Keyword list `mixedPaper` from AnalyzeScreen.js (lines 82-99), copied verbatim. -/
def mixedPaper : List String :=
  ["printer paper", "paper", "paper products", "envelope", "notebook", "paper bag",
   "file folder", "index card", "sticky note", "brochure", "catalog", "softcover book",
   "newspaper", "magazine", "advertisement flyer", "greeting card", "copy paper", "letterhead",
   "receipt", "paper napkin", "junk mail", "construction paper",
   "wrapping paper (non-metallic)", "manila folder", "paperboard packaging", "calendar paper",
   "postcard", "lined paper", "colored paper", "fax paper", "legal pad paper", "blueprint",
   "packaging", "packaging and labeling", "cardboards", "cereal boxes (remove liner)",
   "paper egg cartons", "paper shopping bags", "corrugated cardboard",
   "books (without hardcovers)", "phone books", "pizza boxes (clean parts only)",
   "paper envelopes with windows", "brown paper bags", "clean napkins",
   "paper packaging material", "clean paper cups", "paper coffee sleeves", "clean paper trays",
   "notepads", "unused disposable placemats", "craft paper", "clean tissue paper",
   "cardboard drink carriers", "clean cardboard sleeves", "paper bag", "egg carton",
   "tetra packs", "cardboard boxes", "clamshell boxes", "envelopes", "kraft bag",
   "old notebooks"]

/-- Keyword list `recycling` from AnalyzeScreen.js (lines 101-123), copied verbatim. -/
def recycling : List String :=
  ["aluminum can", "plastic water bottle", "glass jar", "milk jug", "soda can", "steel can",
   "cardboard box", "cereal box", "clean plastic container", "plastic bottle cap", "newspaper",
   "magazine", "office paper", "junk mail", "clean aluminum foil", "metal lid", "glass bottle",
   "detergent bottle", "food can", "cardboard tube", "plastic milk jug", "paper towel roll",
   "yogurt container", "shampoo bottle", "clean food container", "clean jar", "wine bottle",
   "juice bottle", "laundry detergent bottle", "plastic clamshell container", "water bottle",
   "plastic bottle", "bottle", "straws", "cups (recyclable)", "cutlery (recyclable)",
   "plastic egg cartons", "tetra packs", "clean plastic bags (bundle together)", "tin cans",
   "beverage cartons", "aluminum pie plates", "plastic plant pots", "rigid plastic packaging",
   "toys made of single-material plastic", "clear glass jars", "clean pizza boxes",
   "empty aerosol cans", "metal tins", "clean tin foil trays",
   "plastic food containers (cleaned)", "paperboard boxes", "clean bubble wrap",
   "recyclable drinking cups", "metal wire hangers", "empty pill bottles",
   "clean aluminum cans", "egg cartons", "jars with labels removed", "recyclable lids",
   "hard plastic takeout containers", "plastic jugs", "clean cardboard packaging",
   "clean cereal liners", "clean yogurt lids", "clean film plastic",
   "clean plastic clamshells", "milk gallon", "aluminium can", "glass bottles",
   "shampoo bottles", "soda caps", "bottle caps", "glass jars", "tin containers",
   "aluminium trays"]

/-- Keyword list `trashCans` from AnalyzeScreen.js (lines 125-141), copied verbatim. -/
def trashCans : List String :=
  ["trash can", "recycling bin", "compost bin", "metal bin", "plastic trash can",
   "waste container", "garbage bin", "rubbish bin", "wheelie bin", "dustbin", "wastebasket",
   "indoor trash can", "outdoor trash can", "pedal bin", "swing-top bin", "recycling station",
   "composting station", "three-bin system", "dual compartment bin", "trash sorter",
   "smart trash can", "industrial waste bin", "garden waste bin", "public trash can",
   "street-side bin", "park bin", "office bin", "kitchen bin", "bathroom bin",
   "stainless steel bin", "wooden trash bin", "eco-friendly bin", "biodegradable bin",
   "colored recycling bin", "blue recycling bin", "green compost bin", "yellow recycling bin",
   "red trash can", "black garbage bin", "community recycling station", "municipal waste bin",
   "hazardous waste bin", "medical waste bin", "electronic waste bin",
   "smart waste disposal unit", "bin with foot pedal", "urban recycling center bins",
   "compost tumblers", "dog waste bins", "school cafeteria bins", "solar-powered smart bins",
   "office paper recycling bins", "park sorting stations", "customizable compartment bins",
   "bins with smart sensors", "child-friendly trash bins"]

/-- Embedding of the categorization step of `analyzeImage` (AnalyzeScreen.js
lines 263-277).  The source lower-cases each label description, then in mode
"trash" assigns the first matching category in the fixed order landfill,
recycling, mixedPaper, compost (default "Unknown"); in mode "trashCan" it
reports whether any description appears in `trashCans`.  Confidence scores
are never consulted. -/
def analyzeImageCategory (mode : String) (labelAnnotations : List LabelAnnotation) : String :=
  let descriptions := labelAnnotations.map (fun l => toLowerString l.description)
  if mode = "trash" then
    if descriptions.any (fun desc => landfill.contains desc) then "Landfill"
    else if descriptions.any (fun desc => recycling.contains desc) then "Recycle"
    else if descriptions.any (fun desc => mixedPaper.contains desc) then "Paper"
    else if descriptions.any (fun desc => compost.contains desc) then "Compost"
    else "Unknown"
  else if mode = "trashCan" then
    if descriptions.any (fun desc => trashCans.contains desc) then "Trash Can Found"
    else "No Trash Can Found"
  else "Unknown"

/-- The "trash" analysis mode string (AnalyzeScreen.js line 266). -/
def trashMode : String := "trash"

/-! ### Helper lemmas about the nearest-marker scan -/

lemma dist2_nonneg (a b : Coordinate) : 0 ≤ dist2 a b := by
  unfold dist2
  positivity

lemma foldl_nearestStep_some (u : Coordinate) :
    ∀ (l : List LocalMarker) (b : LocalMarker) (bd : ℚ),
      ∃ p d, l.foldl (nearestStep u) (some (b, bd)) = some (p, d) ∧
        d ≤ bd ∧ (∀ m ∈ l, d ≤ dist2 m.coordinate u) ∧
        ((p = b ∧ d = bd) ∨
          (d = dist2 p.coordinate u ∧ d < bd ∧
            ∃ l1 l2, l = l1 ++ p :: l2 ∧ ∀ m ∈ l1, d < dist2 m.coordinate u)) := by
  intro l
  induction l with
  | nil =>
    intro b bd
    exact ⟨b, bd, rfl, le_refl _, by simp, Or.inl ⟨rfl, rfl⟩⟩
  | cons m rest ih =>
    intro b bd
    by_cases hlt : dist2 m.coordinate u < bd
    · have hstep : (m :: rest).foldl (nearestStep u) (some (b, bd))
          = rest.foldl (nearestStep u) (some (m, dist2 m.coordinate u)) := by
        simp [List.foldl, nearestStep, hlt]
      obtain ⟨p, d, hres, hle, hall, hdisj⟩ := ih m (dist2 m.coordinate u)
      refine ⟨p, d, hstep.trans hres, le_trans hle (le_of_lt hlt), ?_, ?_⟩
      · intro x hx
        rcases List.mem_cons.mp hx with hx | hx
        · rw [hx]
          exact hle
        · exact hall x hx
      · rcases hdisj with ⟨hp, hd⟩ | ⟨hd, hdlt, l1, l2, hsplit, hfirst⟩
        · subst hp
          refine Or.inr ⟨hd, ?_, [], rest, by simp, by simp⟩
          rw [hd]
          exact hlt
        · refine Or.inr ⟨hd, lt_trans hdlt hlt, m :: l1, l2, by simp [hsplit], ?_⟩
          intro x hx
          rcases List.mem_cons.mp hx with hx | hx
          · rw [hx]
            exact hdlt
          · exact hfirst x hx
    · have hstep : (m :: rest).foldl (nearestStep u) (some (b, bd))
          = rest.foldl (nearestStep u) (some (b, bd)) := by
        simp [List.foldl, nearestStep, hlt]
      obtain ⟨p, d, hres, hle, hall, hdisj⟩ := ih b bd
      have hbd : bd ≤ dist2 m.coordinate u := le_of_not_lt hlt
      refine ⟨p, d, hstep.trans hres, hle, ?_, ?_⟩
      · intro x hx
        rcases List.mem_cons.mp hx with hx | hx
        · rw [hx]
          exact le_trans hle hbd
        · exact hall x hx
      · rcases hdisj with h | ⟨hd, hdlt, l1, l2, hsplit, hfirst⟩
        · exact Or.inl h
        · refine Or.inr ⟨hd, hdlt, m :: l1, l2, by simp [hsplit], ?_⟩
          intro x hx
          rcases List.mem_cons.mp hx with hx | hx
          · rw [hx]
            exact lt_of_lt_of_le hdlt hbd
          · exact hfirst x hx

lemma findNearestMarker_spec (markers : List LocalMarker) (u : Coordinate)
    (p : LocalMarker) (d : ℚ) (h : findNearestMarker markers u = some (p, d)) :
    d = dist2 p.coordinate u ∧ (∀ m ∈ markers, d ≤ dist2 m.coordinate u) ∧
    ∃ l1 l2, markers = l1 ++ p :: l2 ∧ ∀ m ∈ l1, d < dist2 m.coordinate u := by
  cases markers with
  | nil => simp [findNearestMarker] at h
  | cons m rest =>
    have h0 : findNearestMarker (m :: rest) u
        = rest.foldl (nearestStep u) (some (m, dist2 m.coordinate u)) := by
      simp [findNearestMarker, List.foldl, nearestStep]
    obtain ⟨p', d', hres, hle, hall, hdisj⟩ :=
      foldl_nearestStep_some u rest m (dist2 m.coordinate u)
    rw [h0, hres] at h
    obtain ⟨hp, hd⟩ : p' = p ∧ d' = d := by simpa using h
    subst hp
    subst hd
    rcases hdisj with ⟨hp, hd⟩ | ⟨hd, hdlt, l1, l2, hsplit, hfirst⟩
    · subst hp
      refine ⟨hd, ?_, [], rest, by simp, by simp⟩
      intro x hx
      rcases List.mem_cons.mp hx with hx | hx
      · rw [hx]
        exact hle
      · exact hall x hx
    · refine ⟨hd, ?_, m :: l1, l2, by simp [hsplit], ?_⟩
      · intro x hx
        rcases List.mem_cons.mp hx with hx | hx
        · rw [hx]
          exact le_of_lt hdlt
        · exact hall x hx
      · intro x hx
        rcases List.mem_cons.mp hx with hx | hx
        · rw [hx]
          exact hdlt
        · exact hfirst x hx

lemma findNearestMarker_mem (markers : List LocalMarker) (u : Coordinate)
    (p : LocalMarker) (d : ℚ) (h : findNearestMarker markers u = some (p, d)) :
    p ∈ markers := by
  obtain ⟨-, -, l1, l2, hsplit, -⟩ := findNearestMarker_spec markers u p d h
  rw [hsplit]
  simp

/-! ### C2: findNearestMarker returns the first marker at minimal distance -/

/-- C2: `findNearestMarker` iterates over all markers; on the empty marker set
it returns none; otherwise the returned marker's Euclidean degree-space
distance to the user location is minimal over all markers, the stored value
is its squared distance, and the returned marker is the first one in
iteration order attaining the minimum (later markers only replace the
current best on strictly smaller distance). -/
theorem findNearest_first_minimum (markers : List LocalMarker) (u : Coordinate) :
    (markers = [] → findNearestMarker markers u = none) ∧
    ∀ p d, findNearestMarker markers u = some (p, d) →
      d = dist2 p.coordinate u ∧
      (∀ m ∈ markers,
        Real.sqrt (dist2 p.coordinate u) ≤ Real.sqrt (dist2 m.coordinate u)) ∧
      ∃ l1 l2, markers = l1 ++ p :: l2 ∧
        ∀ m ∈ l1, Real.sqrt (dist2 p.coordinate u) < Real.sqrt (dist2 m.coordinate u) := by
  constructor
  · intro h
    subst h
    rfl
  · intro p d h
    obtain ⟨hd, hall, l1, l2, hsplit, hfirst⟩ := findNearestMarker_spec markers u p d h
    subst hd
    refine ⟨rfl, ?_, l1, l2, hsplit, ?_⟩
    · intro m hm
      exact Real.sqrt_le_sqrt (by exact_mod_cast hall m hm)
    · intro m hm
      exact Real.sqrt_lt_sqrt (by exact_mod_cast dist2_nonneg p.coordinate u)
        (by exact_mod_cast hfirst m hm)

/-- Markers used by the witnesses: one at (3,4), one at (0,1). -/
def witnessMarkerA : LocalMarker := ⟨1, ⟨3, 4⟩, false⟩

def witnessMarkerB : LocalMarker := ⟨2, ⟨0, 1⟩, true⟩

def witnessUser : Coordinate := ⟨0, 0⟩

/-- Witness for C2: on the concrete two-marker set the scan returns the
marker at (0,1) with squared distance 1, and its distance is at most the
distance of the marker at (3,4). -/
theorem findNearest_first_minimum_witness :
    Real.sqrt (dist2 witnessMarkerB.coordinate witnessUser)
      ≤ Real.sqrt (dist2 witnessMarkerA.coordinate witnessUser) :=
  (((findNearest_first_minimum [witnessMarkerA, witnessMarkerB] witnessUser).2
      witnessMarkerB 1
      (by norm_num [findNearestMarker, nearestStep, dist2, witnessMarkerA,
        witnessMarkerB, witnessUser, List.foldl])).2).1
    witnessMarkerA (by simp)

/-! ### C3: the reported kilometre value -/

/-- Scenario pin set of the C3 claim: pins at (0,0), (1,1) and (0.1,0.1). -/
def c3markers : List LocalMarker :=
  [⟨1, ⟨0, 0⟩, false⟩, ⟨2, ⟨1, 1⟩, false⟩, ⟨3, ⟨1/10, 1/10⟩, false⟩]

/-- Scenario user location of the C3 claim: (0,0). -/
def c3user : Coordinate := ⟨0, 0⟩

/-- The pin at (0,0) in the C3 scenario. -/
def c3originPin : LocalMarker := ⟨1, ⟨0, 0⟩, false⟩

/-- C3 counterexample: in the claim's own scenario (pins at (0,0), (1,1),
(0.1,0.1), user at (0,0)) the scan returns the pin at (0,0) at squared
distance 0 — not the pin at (0.1,0.1), whose coordinate differs. -/
theorem km_scenario_counterexample :
    findNearestMarker c3markers c3user = some (c3originPin, 0) ∧
    c3originPin.coordinate ≠ ⟨1/10, 1/10⟩ := by
  constructor
  · norm_num [findNearestMarker, nearestStep, dist2, c3markers, c3user,
      c3originPin, List.foldl]
  · norm_num [c3originPin, Coordinate.mk.injEq]

/-- C3 (amended): for every non-empty marker set the kilometre value reported
by the scan equals the minimal Euclidean degree-space distance multiplied by
the fixed factor 111; in the claim's scenario (pins at (0,0), (1,1),
(0.1,0.1), user at (0,0)) the nearest pin is the one at (0,0) and the
reported distance is 0 km. -/
theorem reported_km_is_min_degree_distance_times_111 :
    (∀ markers u p d, findNearestMarker markers u = some (p, d) →
      Real.sqrt d * kmPerDegree = Real.sqrt (dist2 p.coordinate u) * kmPerDegree ∧
      ∀ m ∈ markers,
        Real.sqrt d * kmPerDegree ≤ Real.sqrt (dist2 m.coordinate u) * kmPerDegree) ∧
    findNearestMarker c3markers c3user = some (c3originPin, 0) ∧
    Real.sqrt ((0 : ℚ)) * kmPerDegree = 0 := by
  refine ⟨?_, ?_, ?_⟩
  · intro markers u p d h
    obtain ⟨hd, hall, -, -, -, -⟩ := findNearestMarker_spec markers u p d h
    subst hd
    refine ⟨rfl, ?_⟩
    intro m hm
    have hs : Real.sqrt (dist2 p.coordinate u) ≤ Real.sqrt (dist2 m.coordinate u) :=
      Real.sqrt_le_sqrt (by exact_mod_cast hall m hm)
    have hk : (0 : ℝ) ≤ (kmPerDegree : ℚ) := by norm_num [kmPerDegree]
    exact mul_le_mul_of_nonneg_right hs hk
  · norm_num [findNearestMarker, nearestStep, dist2, c3markers, c3user,
      c3originPin, List.foldl]
  · simp

/-- Witness for C3: the amended kilometre theorem applied to its own
scenario. -/
theorem reported_km_witness :
    Real.sqrt ((0 : ℚ)) * kmPerDegree
      = Real.sqrt (dist2 c3originPin.coordinate c3user) * kmPerDegree :=
  (reported_km_is_min_degree_distance_times_111.1 c3markers c3user c3originPin 0
      reported_km_is_min_degree_distance_times_111.2.1).1

/-! ### C1: handleAddMarker never rejects -/

/-- Initial state of the C1 counterexample: one marker already in `placed`
(unconfirmed) state. -/
def c1start : MapState :=
  { markers := [⟨1, ⟨0, 0⟩, false⟩], markerMap := [⟨"#1", 1⟩], selectedMarker := none }

/-- C1 counterexample: with one placed (unconfirmed) marker already present,
`handleAddMarker` is not a no-op — it creates a second marker, and afterwards
two markers are in placed state, violating the claimed at-most-one-placed
invariant. -/
theorem addMarker_not_rejected_counterexample :
    placedCount c1start = 1 ∧
    (handleAddMarker c1start 2 ⟨1, 1⟩).markers.length = 2 ∧
    placedCount (handleAddMarker c1start 2 ⟨1, 1⟩) = 2 := by
  refine ⟨rfl, rfl, rfl⟩

/-- C1 (amended): `handleAddMarker` always creates a new marker in placed
state and appends it, regardless of the existing markers; the existing
markers (placed or not) are left unaltered as a prefix, and the number of
placed markers always grows by one, so several placed markers can coexist. -/
theorem addMarker_always_appends (s : MapState) (newId : ℕ) (c : Coordinate) :
    (handleAddMarker s newId c).markers
      = s.markers ++ [{ id := newId, coordinate := c, confirmed := false }] ∧
    placedCount (handleAddMarker s newId c) = placedCount s + 1 := by
  refine ⟨rfl, ?_⟩
  simp [placedCount, handleAddMarker, List.filter_append, isPlaced]

/-! ### C6: a removed marker is never the nearest marker -/

/-- C6: after `removeMarker markerId`, a subsequent nearest-marker search can
never return a marker with the removed id: removal filters every marker with
that id out of the candidate set. -/
theorem removed_marker_never_nearest (s : MapState) (markerId : ℕ) (u : Coordinate)
    (p : LocalMarker) (d : ℚ)
    (h : findNearestMarker (removeMarker s markerId).markers u = some (p, d)) :
    p.id ≠ markerId := by
  have hmem : p ∈ (removeMarker s markerId).markers :=
    findNearestMarker_mem _ u p d h
  have hview : (removeMarker s markerId).markers
      = s.markers.filter (fun marker => marker.id != markerId) := rfl
  rw [hview] at hmem
  have := (List.mem_filter.mp hmem).2
  simpa using this

/-- State used by the C6 witness: markers with ids 5 and 7. -/
def c6state : MapState :=
  { markers := [⟨5, ⟨0, 0⟩, false⟩, ⟨7, ⟨1, 0⟩, true⟩],
    markerMap := [⟨"#1", 5⟩, ⟨"#2", 7⟩], selectedMarker := none }

/-- The marker surviving the C6 witness removal. -/
def c6survivor : LocalMarker := ⟨7, ⟨1, 0⟩, true⟩

/-- Witness for C6: removing marker 5 and searching from (0,0) returns the
marker with id 7, whose id differs from the removed one. -/
theorem removed_marker_never_nearest_witness :
    findNearestMarker (removeMarker c6state 5).markers ⟨0, 0⟩ = some (c6survivor, 1) ∧
    c6survivor.id ≠ 5 :=
  ⟨by norm_num [removeMarker, c6state, c6survivor, findNearestMarker, nearestStep,
      dist2, List.foldl, List.filter],
   removed_marker_never_nearest c6state 5 ⟨0, 0⟩ c6survivor 1
     (by norm_num [removeMarker, c6state, c6survivor, findNearestMarker, nearestStep,
        dist2, List.foldl, List.filter])⟩

/-! ### C7: fetchPath returns origin, midpoint, destination -/

/-- C7: `fetchPath` returns exactly the three-element sequence
`[origin, midpoint, destination]` with the midpoint components the
arithmetic means of the endpoints; consequently every returned path has at
least two coordinates, starts at the origin and ends at the destination. -/
theorem fetchPath_origin_midpoint_destination (origin destination : Coordinate) :
    fetchPath origin destination =
      [origin,
       { latitude := (origin.latitude + destination.latitude) / 2,
         longitude := (origin.longitude + destination.longitude) / 2 },
       destination] ∧
    2 ≤ (fetchPath origin destination).length ∧
    (fetchPath origin destination).head? = some origin ∧
    (fetchPath origin destination).getLast? = some destination := by
  refine ⟨rfl, by simp [fetchPath], rfl, rfl⟩

/-! ### C8: confirmMarker transitions and unknown-id no-op -/

/-- C8: `confirmMarker` sets the `confirmed` flag of every marker carrying
the given id, leaves every other marker in place, preserves the number of
markers, and is the identity when no marker carries the id (a silent no-op
for unknown ids). -/
theorem confirm_transitions_and_unknown_noop (markers : List LocalMarker) (markerId : ℕ) :
    ((∀ m ∈ markers, m.id ≠ markerId) → confirmMarker markers markerId = markers) ∧
    (∀ m ∈ confirmMarker markers markerId, m.id = markerId → m.confirmed = true) ∧
    (∀ m ∈ markers, m.id = markerId →
      ({ m with confirmed := true } : LocalMarker) ∈ confirmMarker markers markerId) ∧
    (∀ m ∈ markers, m.id ≠ markerId → m ∈ confirmMarker markers markerId) ∧
    (confirmMarker markers markerId).length = markers.length := by
  refine ⟨?_, ?_, ?_, ?_, ?_⟩
  · intro hnone
    unfold confirmMarker
    conv_rhs => rw [← List.map_id markers]
    apply List.map_congr_left
    intro a ha
    simp [hnone a ha]
  · intro m hm hid
    obtain ⟨a, ha, hfa⟩ := List.mem_map.mp hm
    by_cases h : a.id = markerId
    · rw [if_pos h] at hfa
      rw [← hfa]
    · rw [if_neg h] at hfa
      rw [hfa] at h
      exact absurd hid h
  · intro m hm hid
    unfold confirmMarker
    have hval : (fun marker =>
        if marker.id = markerId then { marker with confirmed := true } else marker) m
        = ({ m with confirmed := true } : LocalMarker) := if_pos hid
    exact hval ▸ List.mem_map_of_mem _ hm
  · intro m hm hid
    unfold confirmMarker
    have hval : (fun marker =>
        if marker.id = markerId then { marker with confirmed := true } else marker) m
        = m := if_neg hid
    exact hval ▸ List.mem_map_of_mem _ hm
  · simp [confirmMarker]

/-- Marker used by the C8 witness. -/
def c8marker : LocalMarker := ⟨1, ⟨2, 3⟩, false⟩

/-- Witness for C8: confirming the unknown id 99 leaves the one-marker set
unchanged. -/
theorem confirm_unknown_noop_witness :
    confirmMarker [c8marker] 99 = [c8marker] :=
  (confirm_transitions_and_unknown_noop [c8marker] 99).1 (by decide)

/-! ### C9: selection and navigation availability -/

/-- Unconfirmed (placed) marker of the C9 counterexample. -/
def c9unconfirmed : LocalMarker := ⟨1, ⟨0, 0⟩, false⟩

/-- Initial state of the C9 counterexample. -/
def c9start : MapState :=
  { markers := [c9unconfirmed], markerMap := [⟨"#1", 1⟩], selectedMarker := none }

/-- C9 counterexample: pressing an unconfirmed marker selects it and the
actions panel — including the Navigate action — becomes available, so a pin
not in `confirmed` state does enable navigation. -/
theorem unconfirmed_marker_navigable_counterexample :
    c9unconfirmed.confirmed = false ∧
    (markerOnPress c9start c9unconfirmed).selectedMarker = some c9unconfirmed ∧
    navigateActionAvailable (markerOnPress c9start c9unconfirmed) = true := by
  refine ⟨rfl, rfl, rfl⟩

/-- C9 (amended): pressing a marker makes it the single highlighted marker,
overwriting any previous selection (single-selection model), and the
Confirm/Navigate/Remove actions become available for the selected marker
regardless of its `confirmed` flag. -/
theorem select_overwrites_and_any_marker_navigable (s : MapState) (marker : LocalMarker) :
    (markerOnPress s marker).selectedMarker = some marker ∧
    navigateActionAvailable (markerOnPress s marker) = true ∧
    ∀ prev, (markerOnPress { s with selectedMarker := prev } marker).selectedMarker
      = some marker :=
  ⟨rfl, rfl, fun _ => rfl⟩

/-! ### C10: removeMarker clears the selection -/

/-- C10: `removeMarker` unconditionally clears the current selection — for
every state and every id (selected or not) the post-state has no selected
marker, so the actions panel and the Navigate action disappear and cannot
target a removed marker. -/
theorem remove_clears_selection (s : MapState) (markerId : ℕ) :
    (removeMarker s markerId).selectedMarker = none ∧
    navigateActionAvailable (removeMarker s markerId) = false :=
  ⟨rfl, rfl⟩

/-! ### C4: status notifier timing -/

/-- Call trace of the C4 counterexample: notify at 0 ms and again at
1000 ms. -/
def c4calls : List (ℕ × String) :=
  [(0, "Pin added"), (1000, "Pin confirmed")]

/-- C4 counterexample: the second call's message is displayed at 2600 ms and
its claimed 2000 ms full-opacity window (which would last until 3300 ms) has
not elapsed, yet the message is no longer at full opacity — the first call's
fade-out timer, never cleared, fired at 2300 ms.  The prior fade timer is
therefore not superseded and the visibility window does not restart. -/
theorem notify_timer_not_superseded_counterexample :
    statusMessageAt c4calls 2600 = some ("Pin confirmed") ∧
    2600 < 1000 + 300 + 2000 ∧
    fullyVisibleAt c4calls 2600 = false := by
  refine ⟨by decide, by decide, by decide⟩

/-- C4 (amended): `updateStatus` displays the message immediately, and after
a single uninterrupted call the message stays at full opacity for the whole
2000 ms window following the 300 ms fade-in; a second call while the first
is active immediately replaces the displayed message, but the first call's
fade-out timeout is not cancelled: it fires 2300 ms after the first call and
removes the replaced message from full opacity strictly before the second
call's 2000 ms window has elapsed (no restart of the timing window). -/
theorem notify_replaces_but_prior_timer_fires (t1 t2 : ℕ) (m1 m2 : String)
    (h1 : t1 + 300 < t2) (h2 : t2 < t1 + 300 + 2000) :
    (∀ x, t1 + 300 ≤ x → x < t1 + 300 + 2000 → fullyVisibleAt [(t1, m1)] x = true) ∧
    statusMessageAt [(t1, m1), (t2, m2)] t2 = some m2 ∧
    statusMessageAt [(t1, m1), (t2, m2)] (t1 + 300 + 2000 + 300) = some m2 ∧
    fullyVisibleAt [(t1, m1), (t2, m2)] (t1 + 300 + 2000 + 300) = false ∧
    t1 + 300 + 2000 + 300 < t2 + 300 + 2000 := by
  refine ⟨?_, ?_, ?_, ?_, by omega⟩
  · intro x hx1 hx2
    have e1 : t1 ≤ x := by omega
    have e2 : ¬ (t1 + 300 + 2000 ≤ x) := by omega
    simp [fullyVisibleAt, lastFadeEventAt, fadeEvents, List.foldl, e1, e2, hx1]
  · have a1 : t1 ≤ t2 := by omega
    simp [statusMessageAt, List.foldl, a1]
  · have a1 : t1 ≤ t1 + 300 + 2000 + 300 := by omega
    have a2 : t2 ≤ t1 + 300 + 2000 + 300 := by omega
    simp [statusMessageAt, List.foldl, a1, a2]
  · have c1 : t1 ≤ t1 + 300 + 2000 + 300 := by omega
    have c2 : t2 ≤ t1 + 300 + 2000 + 300 := by omega
    have c3 : t1 ≤ t2 := by omega
    have c4 : t1 + 300 + 2000 ≤ t1 + 300 + 2000 + 300 := by omega
    have c5 : t2 ≤ t1 + 300 + 2000 := by omega
    have c6 : ¬ (t2 + 300 + 2000 ≤ t1 + 300 + 2000 + 300) := by omega
    simp [fullyVisibleAt, lastFadeEventAt, fadeEvents, List.foldl, List.map,
      c1, c2, c3, c4, c5, c6]

/-- Witness for C4 (amended): the two calls of the claim's scenario, at 0 ms
and 1000 ms. -/
theorem notify_replaces_witness :
    statusMessageAt [(0, "Pin added"), (1000, "Pin confirmed")] 1000
      = some ("Pin confirmed") ∧
    fullyVisibleAt [(0, "Pin added"), (1000, "Pin confirmed")] (0 + 300 + 2000 + 300)
      = false :=
  ⟨(notify_replaces_but_prior_timer_fires 0 1000 "Pin added" "Pin confirmed"
      (by decide) (by decide)).2.1,
   (notify_replaces_but_prior_timer_fires 0 1000 "Pin added" "Pin confirmed"
      (by decide) (by decide)).2.2.2.1⟩

/-! ### C5: label categorization in trash mode -/

/-- Labels of the first C5 scenario: a single "banana peel" label. -/
def bananaPeelLabels : List LabelAnnotation :=
  [⟨"banana peel", 9/10⟩]

/-- Labels of the second C5 scenario: "plastic bag" and "aluminum can". -/
def landfillRecycleLabels : List LabelAnnotation :=
  [⟨"plastic bag", 9/10⟩, ⟨"aluminum can", 8/10⟩]

/-- C5: in "trash" mode the assigned category is the first category in the
fixed priority order Landfill > Recycle > Paper > Compost whose keyword list
contains some lowercased label description; the result depends only on the
descriptions, never on the confidence scores; and the two scenarios evaluate
to "Compost" and "Landfill" respectively. -/
theorem trash_category_first_match_priority :
    (∀ l1 l2 mode, l1.map LabelAnnotation.description = l2.map LabelAnnotation.description →
      analyzeImageCategory mode l1 = analyzeImageCategory mode l2) ∧
    (∀ labels, (∃ la ∈ labels, toLowerString la.description ∈ landfill) →
      analyzeImageCategory trashMode labels = "Landfill") ∧
    (∀ labels, (∀ la ∈ labels, toLowerString la.description ∉ landfill) →
      (∃ la ∈ labels, toLowerString la.description ∈ recycling) →
      analyzeImageCategory trashMode labels = "Recycle") ∧
    (∀ labels, (∀ la ∈ labels,
        toLowerString la.description ∉ landfill ∧ toLowerString la.description ∉ recycling) →
      (∃ la ∈ labels, toLowerString la.description ∈ mixedPaper) →
      analyzeImageCategory trashMode labels = "Paper") ∧
    (∀ labels, (∀ la ∈ labels,
        toLowerString la.description ∉ landfill ∧ toLowerString la.description ∉ recycling ∧
          toLowerString la.description ∉ mixedPaper) →
      (∃ la ∈ labels, toLowerString la.description ∈ compost) →
      analyzeImageCategory trashMode labels = "Compost") ∧
    analyzeImageCategory trashMode bananaPeelLabels = "Compost" ∧
    analyzeImageCategory trashMode landfillRecycleLabels = "Landfill" := by
  refine ⟨?_, ?_, ?_, ?_, ?_, by decide, by decide⟩
  · intro l1 l2 mode hmap
    have hdesc : l1.map (fun l => toLowerString l.description)
        = l2.map (fun l => toLowerString l.description) := by
      have h1 : l1.map (fun l => toLowerString l.description)
          = (l1.map LabelAnnotation.description).map toLowerString := by
        rw [List.map_map]
        rfl
      have h2 : l2.map (fun l => toLowerString l.description)
          = (l2.map LabelAnnotation.description).map toLowerString := by
        rw [List.map_map]
        rfl
      rw [h1, h2, hmap]
    simp only [analyzeImageCategory, hdesc]
  · intro labels hex
    simp [analyzeImageCategory, trashMode, hex]
  · intro labels hno hex
    have hnoE : ¬ ∃ la ∈ labels, toLowerString la.description ∈ landfill := by
      simpa using hno
    simp [analyzeImageCategory, trashMode, hnoE, hex]
  · intro labels hno hex
    have hnoL : ¬ ∃ la ∈ labels, toLowerString la.description ∈ landfill := by
      simpa using fun la hla => (hno la hla).1
    have hnoR : ¬ ∃ la ∈ labels, toLowerString la.description ∈ recycling := by
      simpa using fun la hla => (hno la hla).2
    simp [analyzeImageCategory, trashMode, hnoL, hnoR, hex]
  · intro labels hno hex
    have hnoL : ¬ ∃ la ∈ labels, toLowerString la.description ∈ landfill := by
      simpa using fun la hla => (hno la hla).1
    have hnoR : ¬ ∃ la ∈ labels, toLowerString la.description ∈ recycling := by
      simpa using fun la hla => (hno la hla).2.1
    have hnoP : ¬ ∃ la ∈ labels, toLowerString la.description ∈ mixedPaper := by
      simpa using fun la hla => (hno la hla).2.2
    simp [analyzeImageCategory, trashMode, hnoL, hnoR, hnoP, hex]

/-- Witness for C5: the landfill-priority branch applied to the concrete
"plastic bag"/"aluminum can" label list. -/
theorem trash_category_witness :
    analyzeImageCategory trashMode landfillRecycleLabels = "Landfill" :=
  trash_category_first_match_priority.2.1 landfillRecycleLabels
    ⟨⟨"plastic bag", 9/10⟩, by simp [landfillRecycleLabels], by decide⟩

end BinFinder
